import Mathlib

/-!
Verification development for the Corpora-that-Support-Clinical-Reasoning ETL
pipeline: a shallow embedding of `src/etl_classes/dynamic_etl.py` and
`src/pipeline_config_system.py`, together with theorems about the embedded
operations.

Paragraph text is modelled as `List Char`.  The external text-normalisation
primitives (`modifiers/text_modifier.py`) and structural-removal rules
(`modifiers/paragraph_modifier.py`) are treated, as the specification
prescribes, as opaque pure functions and appear as parameters.
-/

/-- Whitespace characters recognised by Python's `str.split()` /
`str.strip()` for the character repertoire relevant here. -/
def isPySpace (c : Char) : Bool :=
  c == ' ' || c == '\t' || c == '\n' || c == '\r' || c == '\x0b' || c == '\x0c'

/-- `str.strip()`: remove leading and trailing whitespace. -/
def pyStrip (s : List Char) : List Char :=
  ((s.dropWhile isPySpace).reverse.dropWhile isPySpace).reverse

/-- `str.rstrip()`: remove trailing whitespace. -/
def pyRstrip (s : List Char) : List Char :=
  (s.reverse.dropWhile isPySpace).reverse

/-- Helper for `pySplit`: accumulates the current (reversed) token. -/
def pySplitAux : List Char → List Char → List (List Char)
  | [], [] => []
  | [], cur => [cur.reverse]
  | c :: rest, cur =>
    if isPySpace c then
      match cur with
      | [] => pySplitAux rest []
      | _ => cur.reverse :: pySplitAux rest []
    else pySplitAux rest (c :: cur)

/-- `str.split()` with no argument: split on runs of whitespace, producing no
empty tokens. -/
def pySplit (s : List Char) : List (List Char) :=
  pySplitAux s []

/-- Helper for `pySplitOnChar`: `str.split(sep)` keeps empty fields. -/
def pySplitOnCharAux (sep : Char) : List Char → List Char → List (List Char)
  | [], cur => [cur.reverse]
  | c :: rest, cur =>
    if c == sep then cur.reverse :: pySplitOnCharAux sep rest []
    else pySplitOnCharAux sep rest (c :: cur)

/-- `str.split(sep)` for a one-character separator. -/
def pySplitOnChar (sep : Char) (s : List Char) : List (List Char) :=
  pySplitOnCharAux sep s []

/-- `sep.join(parts)`. -/
def pyJoin (sep : List Char) : List (List Char) → List Char
  | [] => []
  | [x] => x
  | x :: y :: rest => x ++ sep ++ pyJoin sep (y :: rest)

/-- ASCII lowering of one character, the fragment of `str.lower()` that can
affect comparison with the ASCII literals `"y"` / `"n"`. -/
def asciiLower (c : Char) : Char :=
  if 'A' ≤ c && c ≤ 'Z' then Char.ofNat (c.toNat + 32) else c

/-- `str.lower()` restricted to the ASCII mapping (sufficient for the
comparisons performed by the configurator). -/
def pyLower (s : String) : String :=
  ⟨s.data.map asciiLower⟩

/-- A paragraph as seen by the pipeline: its raw text and its style name
(`paragraph.text`, `paragraph.style.name`). -/
structure Paragraph where
  text : List Char
  style : List Char
deriving DecidableEq

/-- One output record of the Text Transform Stage: the dict
`{"text": ..., "style": ...}` built per retained paragraph. -/
structure CorpusEntry where
  text : List Char
  style : List Char
deriving DecidableEq

/-- The four text-level switches of `TextFlags` (`data_classes/flag.py`). -/
structure TextFlags where
  remove_stop_words : Bool
  apply_lemmatization : Bool
  apply_stemming : Bool
  remove_punctuation : Bool
deriving DecidableEq

/-- Modelled from the spec: the `TextFlags` constructor lives in
`data_classes/flag.py`, which is not under `src/`.  Section 3 of the
specification requires that whenever text flags are constructed the
mutual-exclusion precedence holds: if stemming is requested, lemmatization is
suppressed (stemming wins).  `mkTextFlags` is that invariant-preserving
constructor. -/
def mkTextFlags (rsw lem st pu : Bool) : TextFlags :=
  ⟨rsw, lem && !st, st, pu⟩

/-- The four paragraph-level switches of `ParagraphFlags`
(`data_classes/flag.py`). -/
structure ParagraphFlags where
  remove_title_page : Bool
  remove_bibliography : Bool
  remove_headings : Bool
  remove_tables_and_figures : Bool
deriving DecidableEq

/-- `FlagContainer`: paragraph flags and text flags, in the constructor order
used by `configure_dynamic_etl`. -/
structure FlagContainer where
  paragraph_flags : ParagraphFlags
  text_flags : TextFlags
deriving DecidableEq

/-- The external text-normalisation primitives of
`modifiers/text_modifier.py`, treated as opaque pure string functions. -/
structure TextModifier where
  remove_stop_words : List Char → List (List Char) → List Char
  apply_lemmatization : List Char → List Char
  apply_stemming : List Char → List Char
  remove_punctuation : List Char → List Char

/-- The external structural-removal rules of
`modifiers/paragraph_modifier.py`, each returning (kept, removed). -/
structure ParagraphModifier where
  remove_title : List Paragraph → List Paragraph × List Paragraph
  remove_bibliography : List Paragraph → List Paragraph × List Paragraph
  remove_headings : List Paragraph → List Paragraph × List Paragraph
  remove_tables_figures : List Paragraph → List Paragraph × List Paragraph

/-- Which text transform ran, for instrumenting the per-paragraph transform
chain. -/
inductive TransformKind where
  | stop
  | lem
  | stem
  | punct
deriving DecidableEq, BEq

/-- The per-paragraph transform chain of
`DynamicETL.__transform_paragraphs_from_doc` (the four conditional updates of
`current_paragraph_obj["text"]`), instrumented with the list of transforms
that execute.  The input is the already-stripped text of the accumulator
record. -/
def applyTransformsLog (tm : TextModifier) (sw : List (List Char))
    (tf : TextFlags) (t0 : List Char) : List Char × List TransformKind :=
  let s1 := if tf.remove_stop_words then
      (tm.remove_stop_words t0 sw, [TransformKind.stop]) else (t0, [])
  let s2 := if tf.apply_lemmatization then
      (tm.apply_lemmatization s1.1, s1.2 ++ [TransformKind.lem]) else s1
  let s3 := if tf.apply_stemming then
      (tm.apply_stemming s2.1, s2.2 ++ [TransformKind.stem]) else s2
  let s4 := if tf.remove_punctuation then
      (tm.remove_punctuation s3.1, s3.2 ++ [TransformKind.punct]) else s3
  s4

/-- The record built for one retained paragraph: text starts as
`paragraph.text.strip()`, style is `paragraph.style.name`, then the enabled
transforms rewrite the text in the fixed order. -/
def transformOne (tm : TextModifier) (sw : List (List Char))
    (tf : TextFlags) (p : Paragraph) : CorpusEntry :=
  ⟨(applyTransformsLog tm sw tf (pyStrip p.text)).1, p.style⟩

/-- The paragraph loop of `DynamicETL.__transform_paragraphs_from_doc`:
skip empty / single-space / single-newline paragraphs, skip paragraphs with
fewer than 3 whitespace-separated tokens, and transform the rest. -/
def transformParagraphsFromDoc (tm : TextModifier) (sw : List (List Char))
    (tf : TextFlags) : List Paragraph → List CorpusEntry
  | [] => []
  | p :: rest =>
    if p.text = [] ∨ p.text = [' '] ∨ p.text = ['\n'] then
      transformParagraphsFromDoc tm sw tf rest
    else if (pySplit p.text).length < 3 then
      transformParagraphsFromDoc tm sw tf rest
    else
      transformOne tm sw tf p :: transformParagraphsFromDoc tm sw tf rest

/-- Error values raised by external resources (file parsing, resource
loading). -/
def Err := String

/-- The Text Transform Stage with its pre-step
(`DynamicETL.__transform_paragraphs_from_doc` as a whole): when
`remove_stop_words` is enabled the fixed stop-word resource is loaded once,
before the paragraph loop runs; a load failure is fatal for the call.
`stopRes` is the outcome of reading the fixed resource `stopwords.json`.
The second component counts how many times the resource load was
performed during the call. -/
def transformStage (stopRes : Except Err (List (List Char)))
    (tm : TextModifier) (tf : TextFlags) (ps : List Paragraph) :
    Except Err (List CorpusEntry) × Nat :=
  if tf.remove_stop_words then
    (match stopRes with
     | .error e => .error e
     | .ok sw => .ok (transformParagraphsFromDoc tm sw tf ps), 1)
  else
    (.ok (transformParagraphsFromDoc tm [] tf ps), 0)

/-- `DynamicETL.__remove_paragraphs_from_doc`, translated statement by
statement: `doc_paragraphs` is rebound after each enabled rule and
`removed_paragraphs` is extended with that rule's removals. -/
def removeParagraphsFromDoc (pm : ParagraphModifier)
    (doc_paragraphs : List Paragraph) (pf : ParagraphFlags) :
    List Paragraph × List Paragraph :=
  let removed_paragraphs : List Paragraph := []
  let st1 := if pf.remove_title_page then
      (let kr := pm.remove_title doc_paragraphs
       (kr.1, removed_paragraphs ++ kr.2))
    else (doc_paragraphs, removed_paragraphs)
  let st2 := if pf.remove_bibliography then
      (let kr := pm.remove_bibliography st1.1
       (kr.1, st1.2 ++ kr.2))
    else st1
  let st3 := if pf.remove_headings then
      (let kr := pm.remove_headings st2.1
       (kr.1, st2.2 ++ kr.2))
    else st2
  let st4 := if pf.remove_tables_and_figures then
      (let kr := pm.remove_tables_figures st3.1
       (kr.1, st3.2 ++ kr.2))
    else st3
  st4

/-- One compositional rule application as the specification describes it: an
enabled rule consumes the paragraphs kept so far and appends its removals; a
disabled rule is a no-op pass-through. -/
def ruleStep (enabled : Bool)
    (rule : List Paragraph → List Paragraph × List Paragraph)
    (st : List Paragraph × List Paragraph) : List Paragraph × List Paragraph :=
  if enabled then
    (let kr := rule st.1
     (kr.1, st.2 ++ kr.2))
  else st

/-- The Paragraph Filter Stage as the specification states it: the four rules
applied in the fixed order title page, bibliography, headings,
tables/figures, each consuming the previous rule's output. -/
def filterStageSpec (pm : ParagraphModifier) (pf : ParagraphFlags)
    (ps : List Paragraph) : List Paragraph × List Paragraph :=
  ruleStep pf.remove_tables_and_figures pm.remove_tables_figures
    (ruleStep pf.remove_headings pm.remove_headings
      (ruleStep pf.remove_bibliography pm.remove_bibliography
        (ruleStep pf.remove_title_page pm.remove_title (ps, []))))

/-- An extracted document: the paragraph sequence exposed by the external
document-parsing collaborator (`Document.paragraphs`). -/
structure Document where
  paragraphs : List Paragraph
deriving DecidableEq

/-- One entry of the batch result's `documents` list:
`{"filename": ..., "corpora": ...}`. -/
structure DocumentResult where
  filename : String
  corpora : List CorpusEntry
deriving DecidableEq

/-- The batch result assembled by `DynamicETL._transform`
(`corpora_total`): the configuration used plus one entry per document. -/
structure BatchResult where
  config : FlagContainer
  documents : List DocumentResult

/-- The per-document body of the loop in `DynamicETL._transform`: run the
Paragraph Filter Stage, then the Text Transform Stage on the kept
paragraphs. -/
def transformDocs (pm : ParagraphModifier) (tm : TextModifier)
    (stopRes : Except Err (List (List Char))) (flags : FlagContainer) :
    List (Document × String) → Except Err (List DocumentResult)
  | [] => .ok []
  | (d, filename) :: rest =>
    let kept := (removeParagraphsFromDoc pm d.paragraphs flags.paragraph_flags).1
    match (transformStage stopRes tm flags.text_flags kept).1 with
    | .error e => .error e
    | .ok corpora =>
      match transformDocs pm tm stopRes flags rest with
      | .error e => .error e
      | .ok ds => .ok (⟨filename, corpora⟩ :: ds)

/-- `DynamicETL._transform`: the whole transform phase over the extracted
documents, producing the batch result carrying the configuration. -/
def transformBatch (pm : ParagraphModifier) (tm : TextModifier)
    (stopRes : Except Err (List (List Char))) (flags : FlagContainer)
    (docs : List (Document × String)) : Except Err BatchResult :=
  match transformDocs pm tm stopRes flags docs with
  | .error e => .error e
  | .ok ds => .ok ⟨flags, ds⟩

/-- Modelled from the spec: `BaseETL._extract` lives in
`src/etl_classes/base_etl_class.py`, which is not under `src/`.  Per the
specification (4.3 and 7b), extraction yields one `(Document, filename)`
pair per source in input order, and failure to parse any source is fatal for
the entire batch.  Each source is represented by its parse outcome. -/
def extractAll : List (Except Err (Document × String)) →
    Except Err (List (Document × String))
  | [] => .ok []
  | .error e :: _ => .error e
  | .ok d :: rest =>
    match extractAll rest with
    | .error e => .error e
    | .ok ds => .ok (d :: ds)

/-- `DynamicETL._execute_etl`: extract all documents, transform all
documents, then load.  The result is the batch result that `_load` would
serialise, or the error that aborted the run. -/
def executeEtl (pm : ParagraphModifier) (tm : TextModifier)
    (stopRes : Except Err (List (List Char))) (flags : FlagContainer)
    (sources : List (Except Err (Document × String))) :
    Except Err BatchResult :=
  match extractAll sources with
  | .error e => .error e
  | .ok docs => transformBatch pm tm stopRes flags docs

/-- The write log of a run: `DynamicETL._load` performs a single write of the
combined result, and an aborted run writes nothing. -/
def etlWrites (pm : ParagraphModifier) (tm : TextModifier)
    (stopRes : Except Err (List (List Char))) (flags : FlagContainer)
    (sources : List (Except Err (Document × String))) : List BatchResult :=
  match executeEtl pm tm stopRes flags sources with
  | .error _ => []
  | .ok b => [b]

/-- `PipelineType` (`data_classes/etl_pipelines.py`): the three pipeline
choices offered by the configurator. -/
inductive PipelineType where
  | DEFAULT_DYNAMIC
  | CUSTOM_DYNAMIC
  | DEMO
deriving DecidableEq

/-- The `match` of `PipelineConfigSystem.ask_for_pipeline` on one input
token: the case-sensitive tokens `"1"`, `"2"`, `"3"` are accepted, anything
else is rejected (the loop reprompts). -/
def pipelineTokenChoice : String → Option PipelineType
  | "1" => some PipelineType.DEFAULT_DYNAMIC
  | "2" => some PipelineType.CUSTOM_DYNAMIC
  | "3" => some PipelineType.DEMO
  | _ => none

/-- The reprompting loop of `ask_for_pipeline` over a stream of input
tokens: the first accepted token decides; `none` models a stream exhausted
without a valid token (the program would keep prompting). -/
def askForPipeline : List String → Option PipelineType
  | [] => none
  | s :: rest =>
    match pipelineTokenChoice s with
    | some t => some t
    | none => askForPipeline rest

/-- The `match user_answer.lower()` of `PipelineConfigSystem.configure_flag`
on one input token: case-insensitive `"y"` / `"n"` are accepted, anything
else is rejected (the loop reprompts). -/
def flagTokenChoice (s : String) : Option Bool :=
  match pyLower s with
  | "y" => some true
  | "n" => some false
  | _ => none

/-- The reprompting loop of `configure_flag` over a stream of input tokens:
the first accepted token yields the boolean and the remaining stream. -/
def configureFlag : List String → Option (Bool × List String)
  | [] => none
  | s :: rest =>
    match flagTokenChoice s with
    | some b => some (b, rest)
    | none => configureFlag rest

/-- The question text built by `configure_from_flags` for one flag key:
`"Do you want to " + " ".join(key.split("_")).rstrip() + "?"`. -/
def questionForKey (key : String) : String :=
  ⟨"Do you want to ".data ++
    pyRstrip (pyJoin [' '] (pySplitOnChar '_' key.data)) ++ "?".data⟩

/-- The question text as the specification words it: the flag's identifier
with every underscore replaced by a space, wrapped as
`"Do you want to <name>?"`. -/
def specQuestionFor (key : String) : String :=
  ⟨"Do you want to ".data ++
    key.data.map (fun c => if c == '_' then ' ' else c) ++ "?".data⟩

/-- Dictionary read `flag_dict[k]` on the string-keyed flag dictionary
(association-list model; the keys present are fixed by the flag schema). -/
def lookupD : List (String × Bool) → String → Bool
  | [], _ => false
  | kv :: rest, k => if kv.1 == k then kv.2 else lookupD rest k

/-- Dictionary write `flag_dict[k] = b` (updates the existing key in
place, preserving key order). -/
def setD (d : List (String × Bool)) (k : String) (b : Bool) :
    List (String × Bool) :=
  d.map fun kv => if kv.1 == k then (kv.1, b) else kv

/-- State of the flag-configuration walk: the dictionary being mutated, the
questions asked so far, and how many user answers were consumed. -/
structure WalkState where
  dict : List (String × Bool)
  asked : List String
  idx : Nat

/-- One iteration of the `for key in flag_dict` loop of
`PipelineConfigSystem.configure_from_flags`: the special case forces
`apply_lemmatization` to `False` without asking whenever the dictionary's
current `apply_stemming` value is true; otherwise the derived question is
asked and the next (valid) user answer is stored.  `ans n` is the n-th
accepted yes/no answer; `configureFlag` (proved separately) shows invalid
tokens are consumed by reprompting without affecting the answer. -/
def cfgStep (ans : Nat → Bool) (st : WalkState) (key : String) : WalkState :=
  if key == "apply_lemmatization" && lookupD st.dict "apply_stemming" then
    { st with dict := setD st.dict key false }
  else
    { dict := setD st.dict key (ans st.idx),
      asked := st.asked ++ [questionForKey key],
      idx := st.idx + 1 }

/-- `PipelineConfigSystem.configure_from_flags`: iterate over the
dictionary's keys in order, updating each value. -/
def configureFromFlags (ans : Nat → Bool) (d : List (String × Bool)) :
    WalkState :=
  (d.map Prod.fst).foldl (cfgStep ans) ⟨d, [], 0⟩

/-- Modelled from the spec: the field order of `TextFlags`
(`data_classes/flag.py`) is not under `src/`; it determines the iteration
order of `configure_from_flags` over `text_flags.__dict__`.  Section 4.4
("if the *already-decided* `apply_stemming` flag is true") and end-to-end
scenario 3 (the `apply_stemming` question is answered before the
`apply_lemmatization` question is reached) place `apply_stemming` before
`apply_lemmatization` in the walk. -/
def textFlagsDict (v1 v2 v3 v4 : Bool) : List (String × Bool) :=
  [("remove_stop_words", v1), ("apply_stemming", v2),
   ("apply_lemmatization", v3), ("remove_punctuation", v4)]

/-- Modelled from the spec: the field order of `ParagraphFlags`
(`data_classes/flag.py`) is not under `src/`; section 3 lists the four
switches in this order. -/
def paragraphFlagsDict (v1 v2 v3 v4 : Bool) : List (String × Bool) :=
  [("remove_title_page", v1), ("remove_bibliography", v2),
   ("remove_headings", v3), ("remove_tables_and_figures", v4)]

/-- The eight flag identifiers the custom configuration walk asks about. -/
def allFlagKeys : List String :=
  (textFlagsDict false false false false).map Prod.fst ++
    (paragraphFlagsDict false false false false).map Prod.fst

/-- A concrete no-op instance of the external paragraph-removal rules, used
to evaluate the orchestrator on concrete inputs. -/
def pmNoop : ParagraphModifier :=
  ⟨fun ps => (ps, []), fun ps => (ps, []), fun ps => (ps, []),
   fun ps => (ps, [])⟩

/-- A concrete identity instance of the external text-normalisation
primitives, used to evaluate the pipeline on concrete inputs. -/
def tmNoop : TextModifier :=
  ⟨fun t _ => t, fun t => t, fun t => t, fun t => t⟩

/-- Filter-then-map decomposition of the Text Transform Stage's paragraph
loop.
The loop excludes exactly the paragraphs whose raw text has fewer than 3
whitespace-separated tokens (the empty / single-space / single-newline check
is subsumed, those texts having 0 tokens), and applies the transform chain
only to the retained paragraphs. -/
theorem transformParagraphsFromDoc_eq_filter_map (tm : TextModifier)
    (sw : List (List Char)) (tf : TextFlags) (ps : List Paragraph) :
    transformParagraphsFromDoc tm sw tf ps =
      (ps.filter fun p => decide (3 ≤ (pySplit p.text).length)).map
        (transformOne tm sw tf) := by
  induction ps with
  | nil => rfl
  | cons p rest ih =>
    by_cases h1 : p.text = [] ∨ p.text = [' '] ∨ p.text = ['\n']
    · have hz : (pySplit p.text).length = 0 := by
        rcases h1 with h | h | h <;> rw [h] <;> rfl
      rw [transformParagraphsFromDoc, if_pos h1, List.filter_cons]
      simp [hz, ih]
    · rw [transformParagraphsFromDoc, if_neg h1]
      by_cases h2 : (pySplit p.text).length < 3
      · rw [if_pos h2, List.filter_cons]
        have h3 : ¬ (3 ≤ (pySplit p.text).length) := by omega
        simp [h3, ih]
      · rw [if_neg h2, List.filter_cons]
        have h3 : 3 ≤ (pySplit p.text).length := by omega
        simp [h3, ih]

/-- Extraction of a batch containing a failing source always fails. -/
theorem extractAll_append_error (pre : List (Except Err (Document × String)))
    (e : Err) (post : List (Except Err (Document × String))) :
    ∃ e', extractAll (pre ++ Except.error e :: post) = Except.error e' := by
  induction pre with
  | nil => exact ⟨e, rfl⟩
  | cons x rest ih =>
    cases x with
    | error e0 => exact ⟨e0, rfl⟩
    | ok d =>
      obtain ⟨e', he⟩ := ih
      exact ⟨e', by simp [extractAll, he]⟩

/-- Extraction of a batch whose sources all parse succeeds with the parsed
documents in input order. -/
theorem extractAll_map_ok (l : List (Document × String)) :
    extractAll (l.map Except.ok) = Except.ok l := by
  induction l with
  | nil => rfl
  | cons d rest ih => simp [extractAll, ih]

/-- Claim C1: mutual exclusion of stemming and lemmatization is enforced
whenever text flags are constructed or reconfigured.  For every starting
flag dictionary and every sequence of accepted user answers, if the
resulting `apply_stemming` is true then the resulting `apply_lemmatization`
is false; in the custom interactive walk, when the already-decided
`apply_stemming` value is true the `apply_lemmatization` question is not
asked and the flag is forced to false.  Construction through `mkTextFlags`
with stemming requested likewise yields `apply_lemmatization = false`. -/
theorem c1_stemming_suppresses_lemmatization :
    (∀ (v1 v2 v3 v4 : Bool) (ans : Nat → Bool),
      lookupD (configureFromFlags ans (textFlagsDict v1 v2 v3 v4)).dict
          "apply_stemming" = true →
        lookupD (configureFromFlags ans (textFlagsDict v1 v2 v3 v4)).dict
            "apply_lemmatization" = false ∧
        questionForKey "apply_lemmatization" ∉
          (configureFromFlags ans (textFlagsDict v1 v2 v3 v4)).asked) ∧
    (∀ r l p : Bool, (mkTextFlags r l true p).apply_lemmatization = false) := by
  refine ⟨?_, fun r l p => by cases l <;> rfl⟩
  intro v1 v2 v3 v4 ans
  rw [show configureFromFlags ans (textFlagsDict v1 v2 v3 v4) =
      cfgStep ans
        (if ans 1 then
          ⟨[("remove_stop_words", ans 0), ("apply_stemming", ans 1),
            ("apply_lemmatization", false), ("remove_punctuation", v4)],
           ["Do you want to remove stop words?",
            "Do you want to apply stemming?"], 2⟩
        else
          ⟨[("remove_stop_words", ans 0), ("apply_stemming", ans 1),
            ("apply_lemmatization", ans 2), ("remove_punctuation", v4)],
           ["Do you want to remove stop words?",
            "Do you want to apply stemming?",
            "Do you want to apply lemmatization?"], 3⟩)
        "remove_punctuation" from rfl]
  cases h : ans 1 with
  | true =>
    refine fun _ => ⟨rfl, ?_⟩
    show questionForKey "apply_lemmatization" ∉
      ["Do you want to remove stop words?", "Do you want to apply stemming?",
       "Do you want to remove punctuation?"]
    decide
  | false =>
    intro hstem
    exact absurd hstem Bool.false_ne_true

/-- Witness for C1: with all defaults false and a user who answers yes to
everything asked, stemming ends up true, lemmatization is forced false and
its question is never asked. -/
theorem c1_stemming_suppresses_lemmatization_witness :
    lookupD (configureFromFlags (fun _ => true)
        (textFlagsDict false false false false)).dict
      "apply_lemmatization" = false ∧
    questionForKey "apply_lemmatization" ∉
      (configureFromFlags (fun _ => true)
        (textFlagsDict false false false false)).asked :=
  c1_stemming_suppresses_lemmatization.1 false false false false
    (fun _ => true) rfl

/-- Claim C2: for every text-flags value (constructed through the
invariant-preserving constructor) and every paragraph text the Text
Transform Stage processes, at most one of the lemmatization and stemming
transforms executes on it. -/
theorem c2_at_most_one_of_lemma_stem (tm : TextModifier)
    (sw : List (List Char)) (r l s p : Bool) (t : List Char) :
    ((applyTransformsLog tm sw (mkTextFlags r l s p) t).2.count
        TransformKind.lem) +
      ((applyTransformsLog tm sw (mkTextFlags r l s p) t).2.count
        TransformKind.stem) ≤ 1 := by
  cases r <;> cases l <;> cases s <;> cases p <;>
    simp [applyTransformsLog, mkTextFlags] <;> decide

/-- Claim C3: for every text-flags value and every paragraph sequence, the
Text Transform Stage excludes exactly the paragraphs whose raw text has
fewer than 3 whitespace-separated tokens (0, 1 or 2; the
empty/single-newline/single-space check removes nothing further, such texts
having 0 tokens), retains every paragraph with 3 or more tokens, and applies
the enabled transforms only after this filter, to the retained paragraphs'
stripped text. -/
theorem c3_degeneracy_filter (tm : TextModifier) (sw : List (List Char))
    (tf : TextFlags) (ps : List Paragraph) :
    transformParagraphsFromDoc tm sw tf ps =
      (ps.filter fun p => decide (3 ≤ (pySplit p.text).length)).map
        (transformOne tm sw tf) :=
  transformParagraphsFromDoc_eq_filter_map tm sw tf ps

/-- Claim C4: if any document source fails extraction the whole batch aborts
and no output artifact is written; and whenever a run does produce output,
the single written artifact is the transform of the full successfully
extracted batch (extract all, then transform all, then one write). -/
theorem c4_batch_abort_on_extraction_failure (pm : ParagraphModifier)
    (tm : TextModifier) (stopRes : Except Err (List (List Char)))
    (flags : FlagContainer) (pre : List (Except Err (Document × String)))
    (e : Err) (post : List (Except Err (Document × String))) :
    etlWrites pm tm stopRes flags (pre ++ Except.error e :: post) = [] ∧
    (∀ sources b, executeEtl pm tm stopRes flags sources = Except.ok b →
      ∃ docs, extractAll sources = Except.ok docs ∧
        transformBatch pm tm stopRes flags docs = Except.ok b) := by
  constructor
  · obtain ⟨e', he⟩ := extractAll_append_error pre e post
    simp [etlWrites, executeEtl, he]
  · intro sources b hb
    cases hx : extractAll sources with
    | error e0 => simp [executeEtl, hx] at hb
    | ok docs =>
      refine ⟨docs, rfl, ?_⟩
      simpa [executeEtl, hx] using hb

/-- Witness for C4: in a three-source batch whose second source fails to
parse, nothing is written; and a successful one-document run writes exactly
the combined batch result. -/
theorem c4_batch_abort_on_extraction_failure_witness :
    etlWrites pmNoop tmNoop (Except.ok [])
      ⟨⟨false, false, false, false⟩, ⟨false, false, false, false⟩⟩
      [Except.ok (⟨[]⟩, "doc1.docx"), Except.error "parse failure",
       Except.ok (⟨[]⟩, "doc3.docx")] = [] ∧
    (∃ docs, extractAll [Except.ok ((⟨[]⟩ : Document), "doc1.docx")] =
        Except.ok docs ∧
      transformBatch pmNoop tmNoop (Except.ok [])
          ⟨⟨false, false, false, false⟩, ⟨false, false, false, false⟩⟩ docs =
        Except.ok ⟨⟨⟨false, false, false, false⟩,
          ⟨false, false, false, false⟩⟩, [⟨"doc1.docx", []⟩]⟩) :=
  ⟨(c4_batch_abort_on_extraction_failure pmNoop tmNoop (Except.ok [])
      ⟨⟨false, false, false, false⟩, ⟨false, false, false, false⟩⟩
      [Except.ok (⟨[]⟩, "doc1.docx")] "parse failure"
      [Except.ok (⟨[]⟩, "doc3.docx")]).1,
   (c4_batch_abort_on_extraction_failure pmNoop tmNoop (Except.ok [])
      ⟨⟨false, false, false, false⟩, ⟨false, false, false, false⟩⟩
      [Except.ok (⟨[]⟩, "doc1.docx")] "parse failure"
      [Except.ok (⟨[]⟩, "doc3.docx")]).2
     [Except.ok (⟨[]⟩, "doc1.docx")]
     ⟨⟨⟨false, false, false, false⟩, ⟨false, false, false, false⟩⟩,
      [⟨"doc1.docx", []⟩]⟩ rfl⟩

/-- Claim C5: when stop-word removal is enabled the stop-word resource is
loaded exactly once per Text Transform Stage call, independently of how many
paragraphs the call processes (and not at all when the switch is off); and a
failing load is fatal: on a nonempty batch the whole run aborts with the
load error and no document result is produced or written. -/
theorem c5_stopword_load_once_and_fatal
    (stopRes : Except Err (List (List Char))) (tm : TextModifier)
    (tf : TextFlags) (ps ps' : List Paragraph) :
    ((transformStage stopRes tm tf ps).2 =
        (transformStage stopRes tm tf ps').2 ∧
      (transformStage stopRes tm tf ps).2 =
        if tf.remove_stop_words then 1 else 0) ∧
    (∀ (pm : ParagraphModifier) (flags : FlagContainer) (e : Err)
        (d : Document × String) (ds : List (Document × String)),
      flags.text_flags.remove_stop_words = true →
        executeEtl pm tm (Except.error e) flags ((d :: ds).map Except.ok) =
          Except.error e ∧
        etlWrites pm tm (Except.error e) flags ((d :: ds).map Except.ok) =
          []) := by
  refine ⟨⟨?_, ?_⟩, ?_⟩
  · by_cases h : tf.remove_stop_words <;> simp [transformStage, h]
  · by_cases h : tf.remove_stop_words <;> simp [transformStage, h]
  · intro pm flags e d ds hf
    have h1 : executeEtl pm tm (Except.error e) flags
        ((d :: ds).map Except.ok) = Except.error e := by
      rw [show executeEtl pm tm (Except.error e) flags
            ((d :: ds).map Except.ok) =
          transformBatch pm tm (Except.error e) flags (d :: ds) from by
        unfold executeEtl
        rw [extractAll_map_ok]]
      simp [transformBatch, transformDocs, transformStage, hf]
    refine ⟨h1, ?_⟩
    unfold etlWrites
    rw [h1]

/-- Witness for C5: with stop-word removal enabled and an unreadable
stop-word resource, a one-document run aborts with the load error and
writes nothing. -/
theorem c5_stopword_load_once_and_fatal_witness :
    executeEtl pmNoop tmNoop (Except.error "stopwords.json unreadable")
      ⟨⟨false, false, false, false⟩, ⟨true, false, false, false⟩⟩
      ([((⟨[]⟩ : Document), "doc1.docx")].map Except.ok) =
      Except.error "stopwords.json unreadable" ∧
    etlWrites pmNoop tmNoop (Except.error "stopwords.json unreadable")
      ⟨⟨false, false, false, false⟩, ⟨true, false, false, false⟩⟩
      ([((⟨[]⟩ : Document), "doc1.docx")].map Except.ok) = [] :=
  (c5_stopword_load_once_and_fatal
      (Except.error "stopwords.json unreadable") tmNoop
      ⟨true, false, false, false⟩ [] []).2 pmNoop
    ⟨⟨false, false, false, false⟩, ⟨true, false, false, false⟩⟩
    "stopwords.json unreadable" (⟨[]⟩, "doc1.docx") [] rfl

/-- Claim C6: with all four text switches off, the Text Transform Stage maps
every non-degenerate paragraph (3 or more tokens), in input order, to a
record whose text is the stripped input text and whose style is
unchanged. -/
theorem c6_all_false_transform_identity (tm : TextModifier)
    (sw : List (List Char)) (ps : List Paragraph) :
    transformParagraphsFromDoc tm sw ⟨false, false, false, false⟩ ps =
      (ps.filter fun p => decide (3 ≤ (pySplit p.text).length)).map
        (fun p => ⟨pyStrip p.text, p.style⟩) := by
  rw [transformParagraphsFromDoc_eq_filter_map]
  rfl

/-- Claim C7: the Paragraph Filter Stage equals the compositional
application of the four removal rules in the fixed order title page,
bibliography, headings, tables/figures, each enabled rule consuming the
previous rule's kept sequence and a disabled rule passing through; with all
four switches off it is the identity on the paragraph sequence (and removes
nothing). -/
theorem c7_filter_rules_compose (pm : ParagraphModifier)
    (pf : ParagraphFlags) (ps : List Paragraph) :
    removeParagraphsFromDoc pm ps pf = filterStageSpec pm pf ps ∧
      removeParagraphsFromDoc pm ps ⟨false, false, false, false⟩ = (ps, []) :=
  ⟨rfl, rfl⟩

/-- Claim C8: the pipeline prompt accepts exactly the case-sensitive tokens
"1", "2", "3" (mapping to the three pipeline types), flag questions accept
exactly the case-insensitive tokens "y"/"n" (mapping to true/false), and
any other token makes either loop reprompt without advancing state or
changing any value. -/
theorem c8_prompt_token_acceptance :
    (∀ s t, pipelineTokenChoice s = some t ↔
      (s = "1" ∧ t = PipelineType.DEFAULT_DYNAMIC) ∨
      (s = "2" ∧ t = PipelineType.CUSTOM_DYNAMIC) ∨
      (s = "3" ∧ t = PipelineType.DEMO)) ∧
    (∀ s b, flagTokenChoice s = some b ↔
      (pyLower s = "y" ∧ b = true) ∨ (pyLower s = "n" ∧ b = false)) ∧
    (∀ s rest, pipelineTokenChoice s = none →
      askForPipeline (s :: rest) = askForPipeline rest) ∧
    (∀ s rest, flagTokenChoice s = none →
      configureFlag (s :: rest) = configureFlag rest) := by
  refine ⟨?_, ?_, ?_, ?_⟩
  · intro s t
    unfold pipelineTokenChoice
    split <;> simp_all [eq_comm]
  · intro s b
    unfold flagTokenChoice
    split <;> simp_all
  · intro s rest h
    simp [askForPipeline, h]
  · intro s rest h
    simp [configureFlag, h]

/-- Witness for C8: "2" selects the custom pipeline, "Y" answers yes
case-insensitively, and invalid tokens are skipped by both loops. -/
theorem c8_prompt_token_acceptance_witness :
    pipelineTokenChoice "2" = some PipelineType.CUSTOM_DYNAMIC ∧
    flagTokenChoice "Y" = some true ∧
    askForPipeline ["x", "2"] = askForPipeline ["2"] ∧
    configureFlag ["maybe", "y"] = configureFlag ["y"] :=
  ⟨(c8_prompt_token_acceptance.1 "2" PipelineType.CUSTOM_DYNAMIC).mpr
      (Or.inr (Or.inl ⟨rfl, rfl⟩)),
   (c8_prompt_token_acceptance.2.1 "Y" true).mpr (Or.inl ⟨rfl, rfl⟩),
   c8_prompt_token_acceptance.2.2.1 "x" ["2"] rfl,
   c8_prompt_token_acceptance.2.2.2 "maybe" ["y"] rfl⟩

/-- Claim C9: for every flag identifier asked about during the custom
configuration walk, the generated question text equals "Do you want to "
followed by the identifier with every underscore replaced by a space,
followed by "?". -/
theorem c9_question_text_derivation :
    ∀ k ∈ allFlagKeys, questionForKey k = specQuestionFor k := by
  intro k hk
  fin_cases hk <;> rfl

/-- Witness for C9: the question derived for `remove_tables_and_figures`. -/
theorem c9_question_text_derivation_witness :
    questionForKey "remove_tables_and_figures" =
      specQuestionFor "remove_tables_and_figures" :=
  c9_question_text_derivation "remove_tables_and_figures" (by decide)

/-- Claim C10: for every text-flags value and every paragraph sequence, the
styles of the Text Transform Stage's output records are exactly the styles
of the retained input paragraphs, in order: no enabled transform ever
modifies the style field (the right-hand side does not depend on the flags
or on the transform functions). -/
theorem c10_style_unchanged (tm : TextModifier) (sw : List (List Char))
    (tf : TextFlags) (ps : List Paragraph) :
    (transformParagraphsFromDoc tm sw tf ps).map CorpusEntry.style =
      (ps.filter fun p => decide (3 ≤ (pySplit p.text).length)).map
        Paragraph.style := by
  rw [transformParagraphsFromDoc_eq_filter_map, List.map_map]
  rfl
